import Mathlib

/-!
libtty: serial transport (`jni/tty.cpp`, `jni/tty.h`).

A shallow embedding of the transport layer of libtty and proofs about it.

Conventions of the embedding.

* `int` is a 32-bit two's-complement integer: values are `Int`, and every
  arithmetic result is reduced into `[-2^31, 2^31)` by `wrap32`.
* `tcflag_t` and `unsigned` values are `Nat`.
* Constants that come from the system headers (`<termios.h>`, `<fcntl.h>`,
  `<errno.h>`), which are not part of the repository, are the fields of a
  `Platform` record; the functions take it as their first argument.
* Calls into the operating system (`open`, `close`, `tcsetattr`, `write`,
  `read`) are answered by an `Oracle` and recorded in the `trace` of the
  `State`.
* A pointer to a `tty_dev_t` is a `Nat` address into `State.heap`; `0` is
  `NULL`.  Dereferencing an address that holds no live object is undefined
  behaviour and is modelled by the result `none`.
* The values of type `ssize_t` that `write` and `read` return are converted
  to `int` by `wrap32` (the identity on the range of `int`).
* The logging macros (`LOGE`, ...) are not modelled; in particular they are
  taken to leave `errno` untouched.
-/

namespace LibTTY

/-! ## Machine integers -/

/-- Value of `INT_MAX` for a 32-bit `int`. -/
def INT_MAX : Int := 2147483647

/-- Value of `INT_MIN` for a 32-bit `int`. -/
def INT_MIN : Int := -2147483648

/-- Reduction of a mathematical integer to a 32-bit two's-complement `int`. -/
def wrap32 (x : Int) : Int := (x + 2147483648) % 4294967296 - 2147483648

/-- Subtraction of two `int` values, `a - b`. -/
def int_sub (a b : Int) : Int := wrap32 (a - b)

/-- Function `std::abs(int)`: negation of a negative argument is again an `int`. -/
def int_abs (x : Int) : Int := if x < 0 then wrap32 (-x) else x

/-! ## Header constants -/

/-- Constants of the system headers used by `tty.cpp`. -/
structure Platform where
  B0 : Nat
  B1200 : Nat
  B1800 : Nat
  B2400 : Nat
  B4800 : Nat
  B9600 : Nat
  B19200 : Nat
  B38400 : Nat
  B57600 : Nat
  B115200 : Nat
  CREAD : Nat
  CS7 : Nat
  CS8 : Nat
  PARENB : Nat
  PARODD : Nat
  CSTOPB : Nat
  CRTSCTS : Nat
  CLOCAL : Nat
  IGNPAR : Nat
  INPCK : Nat
  TCSADRAIN : Nat
  O_RDWR : Nat
  O_NOCTTY : Nat
  EINTR : Int
  EINVAL : Int
  EPERM : Int
  EIO : Int
  ENOMEM : Int
  deriving Repr

/-- The values these constants have in the Linux (bionic) headers. -/
def linux : Platform where
  B0 := 0
  B1200 := 9
  B1800 := 10
  B2400 := 11
  B4800 := 12
  B9600 := 13
  B19200 := 14
  B38400 := 15
  B57600 := 4097
  B115200 := 4098
  CREAD := 128
  CS7 := 32
  CS8 := 48
  PARENB := 256
  PARODD := 512
  CSTOPB := 64
  CRTSCTS := 2147483648
  CLOCAL := 2048
  IGNPAR := 4
  INPCK := 16
  TCSADRAIN := 1
  O_RDWR := 2
  O_NOCTTY := 256
  EINTR := 4
  EINVAL := 22
  EPERM := 1
  EIO := 5
  ENOMEM := 12

/-- Value of `ENOENT` in the Linux headers (not used by `tty.cpp` itself). -/
def linux_ENOENT : Int := 2

/-! ## `tty.h` -/

def TTY_ERR_OK : Int := 0
def TTY_ERR_INVALID_ARGUMENT : Int := 1
def TTY_ERR_NO_PERMISSION : Int := 2
def TTY_ERR_IO_ERROR : Int := 3
def TTY_ERR_INSUFFICIENT_MEMORY : Int := 4
def TTY_ERR_INTERRUPTED : Int := 5
def TTY_ERR_UNKNOWN : Int := 6
def COUNT_OF_TTY_ERRORS : Int := 7

/-- Struct `tty_config_t`. -/
structure tty_config_t where
  baud : Int
  data : Int
  parity : Int
  stop : Int
  flow : Int
  flags : Nat
  deriving DecidableEq, Repr

def TTY_DATA_7 : Int := 7
def TTY_DATA_8 : Int := 8
def TTY_PARITY_NONE : Int := 0
def TTY_PARITY_ODD : Int := 1
def TTY_PARITY_EVEN : Int := 2
def TTY_STOP_1 : Int := 1
def TTY_STOP_2 : Int := 2
def TTY_FLOW_NONE : Int := 0
def TTY_FLOW_HARDWARE : Int := 1

/-- Type `tty_handle_t` (`void*`): an address, `0` being `NULL`. -/
abbrev tty_handle_t := Nat

def INVALID_TTY_HANDLE : tty_handle_t := 0

/-! ## Baud-rate table and nearest-rate lookup -/

/-- Struct `baud_entry_t`. -/
structure baud_entry_t where
  ibaud : Int
  tbaud : Nat
  deriving DecidableEq, Repr

/-- Table `BAUDRATES`, the sentinel included. -/
def BAUDRATES (P : Platform) : List baud_entry_t :=
  [ ⟨0, P.B0⟩,
    ⟨1200, P.B1200⟩,
    ⟨1800, P.B1800⟩,
    ⟨2400, P.B2400⟩,
    ⟨4800, P.B4800⟩,
    ⟨9600, P.B9600⟩,
    ⟨19200, P.B19200⟩,
    ⟨38400, P.B38400⟩,
    ⟨57600, P.B57600⟩,
    ⟨115200, P.B115200⟩,
    ⟨-1, 0⟩ ]

/-- The `for` loop of `to_baudbits`, started at the entries `es` that are
still ahead, with the current values of `min` and `ret`.  The loop leaves at
the first entry with a negative `ibaud` (the sentinel); the equation for the
empty list is never reached on `BAUDRATES` (see `to_baudbits_loop_sentinel`). -/
def to_baudbits_loop (baud : Int) : List baud_entry_t → Int → Nat → Nat
  | [], _, ret => ret
  | e :: es, min, ret =>
    if 0 ≤ e.ibaud then
      let diff := int_abs (int_sub e.ibaud baud)
      let min1 := if min > diff then diff else min
      let ret1 := if min > diff then e.tbaud else ret
      if 0 = diff then ret1 else to_baudbits_loop baud es min1 ret1
    else ret

/-- Function `to_baudbits`. -/
def to_baudbits (P : Platform) (baud : Int) : Nat :=
  to_baudbits_loop baud (BAUDRATES P) INT_MAX P.B0

/-- The ten entries of `BAUDRATES` in front of the sentinel. -/
def baud_table (P : Platform) : List baud_entry_t := (BAUDRATES P).take 10

/-- Function `to_ttyerror`.  The case labels of the `switch` are pairwise
distinct (the program would not compile otherwise), so the order in which
they are tried here does not matter. -/
def to_ttyerror (P : Platform) (err : Int) : Int :=
  if err = P.EINTR then TTY_ERR_INTERRUPTED
  else if err = P.EINVAL then TTY_ERR_INVALID_ARGUMENT
  else if err = P.EPERM then TTY_ERR_NO_PERMISSION
  else if err = P.EIO then TTY_ERR_IO_ERROR
  else if err = P.ENOMEM then TTY_ERR_INSUFFICIENT_MEMORY
  else TTY_ERR_UNKNOWN

/-! ## Error strings -/

/-- Table `ERROR_MESSAGES`. -/
def ERROR_MESSAGES : List String :=
  [ "no error",
    "inavlid argument",
    "operation not permitted",
    "I/O error",
    "insufficient memory",
    "interrupted",
    "unknown error" ]

/-- The expression whose value `tty_get_error_string` returns: either a
string literal or the element `ERROR_MESSAGES[i]`. -/
inductive error_string_expr where
  | literal (s : String)
  | table (i : Int)
  deriving DecidableEq, Repr

/-- Which expression `tty_get_error_string` returns for `err`. -/
def tty_get_error_string_expr (err : Int) : error_string_expr :=
  if err < 0 ∨ err ≥ COUNT_OF_TTY_ERRORS then .literal "unknown error"
  else .table err

/-- Value of such an expression; indexing outside the table has no value. -/
def error_string_expr.value : error_string_expr → Option String
  | .literal s => some s
  | .table i => if 0 ≤ i then ERROR_MESSAGES[i.toNat]? else none

/-- Function `tty_get_error_string`. -/
def tty_get_error_string (err : Int) : Option String :=
  (tty_get_error_string_expr err).value

/-! ## The operating system and the heap -/

/-- Struct `termios`, as far as `tty.cpp` writes it: the remaining members
(`c_line`, `c_cc`) stay zero-initialised. -/
structure termios where
  c_iflag : Nat
  c_oflag : Nat
  c_cflag : Nat
  c_lflag : Nat
  deriving DecidableEq, Repr

/-- A call into the operating system, with its arguments.  For `write` the
buffer is given by the bytes it holds, for `read` by its address. -/
inductive OsCall where
  | sys_open (path : String) (oflag : Nat)
  | sys_close (fd : Int)
  | sys_tcsetattr (fd : Int) (action : Nat) (attr : termios)
  | sys_write (fd : Int) (buf : List Nat) (size : Nat)
  | sys_read (fd : Int) (buf : Nat) (size : Nat)
  deriving DecidableEq, Repr

/-- What a call gives back: its return value and, for a failed call (a
negative return value), the value it leaves in `errno`. -/
structure SysRet where
  ret : Int
  err : Int
  deriving DecidableEq, Repr

/-- The operating system: its answer to a call, given the calls made so far. -/
abbrev Oracle := List OsCall → OsCall → SysRet

/-- Struct `tty_dev_t`. -/
structure tty_dev_t where
  fd_ : Int
  config_ : tty_config_t
  deriving DecidableEq, Repr

/-- Program state: the live `tty_dev_t` objects by address, the number of
allocations made, the calls made to the operating system (oldest first) and
`errno`. -/
structure State where
  heap : Nat → Option tty_dev_t
  brk : Nat
  trace : List OsCall
  errno : Int

/-- Perform one call: ask the oracle, record the call, set `errno` on failure. -/
def syscall (os : Oracle) (s : State) (c : OsCall) : Int × State :=
  let r := os s.trace c
  (r.ret, { s with trace := s.trace ++ [c], errno := if r.ret < 0 then r.err else s.errno })

/-- Store object `d` at address `a`. -/
def State.store (s : State) (a : Nat) (d : tty_dev_t) : State :=
  { s with heap := fun x => if x = a then some d else s.heap x }

/-- Constructor `tty_dev_t::tty_dev_t(int fd)`. -/
def tty_dev_t.ctor (fd : Int) : tty_dev_t :=
  { fd_ := fd,
    config_ :=
      { baud := 0,
        data := TTY_DATA_8,
        parity := TTY_PARITY_NONE,
        stop := TTY_STOP_1,
        flow := TTY_FLOW_NONE,
        flags := 0 } }

/-- Expression `new tty_dev_t(fd)`: a fresh non-null address holding the
constructed object.  The allocation is taken to succeed (a failing `new`
throws and never gives a null pointer). -/
def new_tty_dev_t (s : State) (fd : Int) : tty_handle_t × State :=
  (s.brk + 1, { (s.store (s.brk + 1) (tty_dev_t.ctor fd)) with brk := s.brk + 1 })

/-! ## `tty.cpp`: configuration -/

/-- Lines 102-109 of `tty_set_config`: the `data` field.  The result is the
updated `attr`, or the code of the early `return`. -/
def tty_set_config_data (P : Platform) (config : tty_config_t) (attr : termios) :
    Except Int termios :=
  if config.data = TTY_DATA_7 then
    .ok { attr with c_cflag := attr.c_cflag ||| P.CS7 }
  else if config.data = TTY_DATA_8 then
    .ok { attr with c_cflag := attr.c_cflag ||| P.CS8 }
  else
    .error TTY_ERR_INVALID_ARGUMENT

/-- Lines 110-121 of `tty_set_config`: the `parity` field. -/
def tty_set_config_parity (P : Platform) (config : tty_config_t) (attr : termios) :
    Except Int termios :=
  if config.parity = TTY_PARITY_NONE then
    .ok { attr with c_iflag := attr.c_iflag ||| P.IGNPAR }
  else
    let attr1 := { attr with c_iflag := attr.c_iflag ||| P.INPCK }
    let attr2 := { attr1 with c_cflag := attr1.c_cflag ||| P.PARENB }
    if config.parity = TTY_PARITY_ODD then
      .ok { attr2 with c_cflag := attr2.c_cflag ||| P.PARODD }
    else if config.parity ≠ TTY_PARITY_EVEN then
      .error TTY_ERR_INVALID_ARGUMENT
    else
      .ok attr2

/-- Lines 122-127 of `tty_set_config`: the `stop` field. -/
def tty_set_config_stop (P : Platform) (config : tty_config_t) (attr : termios) :
    Except Int termios :=
  if config.stop = TTY_STOP_2 then
    .ok { attr with c_cflag := attr.c_cflag ||| P.CSTOPB }
  else if config.stop ≠ TTY_STOP_1 then
    .error TTY_ERR_INVALID_ARGUMENT
  else
    .ok attr

/-- Lines 128-135 of `tty_set_config`: the `flow` field. -/
def tty_set_config_flow (P : Platform) (config : tty_config_t) (attr : termios) :
    Except Int termios :=
  if config.flow = TTY_FLOW_HARDWARE then
    .ok { attr with c_cflag := attr.c_cflag ||| P.CRTSCTS }
  else if config.flow = TTY_FLOW_NONE then
    .ok { attr with c_cflag := attr.c_cflag ||| P.CLOCAL }
  else
    .error TTY_ERR_INVALID_ARGUMENT

/-- Lines 93-135 of `tty_set_config`: the attribute structure built from
`*config` by the four steps in the order of the source, or the code of the
first early `return`. -/
def tty_set_config_attr (P : Platform) (config : tty_config_t) : Except Int termios :=
  let baud := to_baudbits P config.baud
  let attr : termios := { c_iflag := 0, c_oflag := 0, c_cflag := baud ||| P.CREAD, c_lflag := 0 }
  match tty_set_config_data P config attr with
  | .error rc => .error rc
  | .ok attr1 =>
    match tty_set_config_parity P config attr1 with
    | .error rc => .error rc
    | .ok attr2 =>
      match tty_set_config_stop P config attr2 with
      | .error rc => .error rc
      | .ok attr3 => tty_set_config_flow P config attr3

/-- Function `tty_set_config`.  `config = none` is a null pointer.  The
result is the returned code and the state after the call. -/
def tty_set_config (P : Platform) (os : Oracle) (s : State) (handle : tty_handle_t)
    (config : Option tty_config_t) : Option (Int × State) :=
  match config with
  | none => some (TTY_ERR_INVALID_ARGUMENT, s)
  | some c =>
    if handle = 0 then some (TTY_ERR_INVALID_ARGUMENT, s)
    else
      match tty_set_config_attr P c with
      | .error rc => some (rc, s)
      | .ok attr =>
        match s.heap handle with
        | none => none
        | some dev =>
          let (r, s1) := syscall os s (.sys_tcsetattr dev.fd_ P.TCSADRAIN attr)
          if 0 > r then some (to_ttyerror P s1.errno, s1)
          else some (TTY_ERR_OK, s1.store handle { dev with config_ := c })

/-- Function `tty_get_config`.  `config = none` is a null pointer, `some c`
a pointer to a struct that now holds `c`; the result is the returned code
and what the struct holds afterwards. -/
def tty_get_config (s : State) (handle : tty_handle_t) (config : Option tty_config_t) :
    Option (Int × Option tty_config_t) :=
  match config with
  | none => some (TTY_ERR_INVALID_ARGUMENT, none)
  | some c =>
    if handle = 0 then some (TTY_ERR_INVALID_ARGUMENT, some c)
    else
      match s.heap handle with
      | none => none
      | some dev => some (TTY_ERR_OK, some dev.config_)

/-- The field constraints of `tty.h` on a `tty_config_t`: `data` is 7 or 8,
`parity` is 0, 1 or 2, `stop` is 1 or 2, `flow` is 0 or 1. -/
def valid_config (c : tty_config_t) : Prop :=
  (c.data = 7 ∨ c.data = 8) ∧ (c.parity = 0 ∨ c.parity = 1 ∨ c.parity = 2)
    ∧ (c.stop = 1 ∨ c.stop = 2) ∧ (c.flow = 0 ∨ c.flow = 1)

instance (c : tty_config_t) : Decidable (valid_config c) := by
  unfold valid_config
  infer_instance

/-! ## `tty.cpp`: opening a device -/

/-- The local `def_config` of `tty_open_device`. -/
def def_config : tty_config_t :=
  { baud := 4800,
    data := TTY_DATA_8,
    parity := TTY_PARITY_NONE,
    stop := TTY_STOP_1,
    flow := TTY_FLOW_NONE,
    flags := 0 }

/-- Function `tty_open_device`.  `handle = none` is a null pointer, `some h`
a pointer to a slot that now holds `h`; the result is the returned code, what
the slot holds afterwards, and the state after the call.  The second test of
`handle` (after `new`) is the one the source makes. -/
def tty_open_device (P : Platform) (os : Oracle) (s : State) (handle : Option tty_handle_t)
    (path : String) : Option (Int × Option tty_handle_t × State) :=
  if handle.isNone then some (TTY_ERR_INVALID_ARGUMENT, handle, s)
  else
    let (fd, s1) := syscall os s (.sys_open path (P.O_RDWR ||| P.O_NOCTTY))
    if 0 > fd then some (to_ttyerror P s1.errno, some INVALID_TTY_HANDLE, s1)
    else
      let (dev, s2) := new_tty_dev_t s1 fd
      if handle.isNone then
        let (_, s3) := syscall os s2 (.sys_close fd)
        some (TTY_ERR_INSUFFICIENT_MEMORY, some INVALID_TTY_HANDLE, s3)
      else
        match tty_set_config P os s2 dev (some def_config) with
        | none => none
        | some (_, s3) => some (TTY_ERR_OK, some dev, s3)

/-- An operating system on which every `open` succeeds with descriptor 3
and every other call fails with `errno = 5` (`EIO` on Linux). -/
def os_open_only : Oracle := fun _ c =>
  match c with
  | .sys_open _ _ => ⟨3, 0⟩
  | _ => ⟨-1, 5⟩

/-- A caller that runs `tty_open_device` on a slot and then `tty_get_config`
on the handle left in the slot: the two returned codes and the configuration
read. -/
def open_then_get_config (P : Platform) (os : Oracle) (s : State) (slot : tty_handle_t)
    (path : String) (out : tty_config_t) : Option (Int × Int × Option tty_config_t) :=
  match tty_open_device P os s (some slot) path with
  | none => none
  | some (rc, none, _) => some (rc, TTY_ERR_INVALID_ARGUMENT, some out)
  | some (rc, some h, s1) =>
    match tty_get_config s1 h (some out) with
    | none => none
    | some (rc1, cfg) => some (rc, rc1, cfg)

/-- A state with no live object and no call made yet. -/
def State.init : State := { heap := fun _ => none, brk := 0, trace := [], errno := 0 }

/-! ## `tty.cpp`: closing, writing, reading -/

/-- Function `tty_write`.  `buf = none` is a null pointer, `some b` a buffer
holding the bytes `b`.  The value of `write` (an `ssize_t`) is converted to
the `int` the function returns. -/
def tty_write (os : Oracle) (s : State) (handle : tty_handle_t) (buf : Option (List Nat))
    (size : Nat) : Option (Int × State) :=
  match buf with
  | none => some (TTY_ERR_INVALID_ARGUMENT, s)
  | some b =>
    if handle = 0 then some (TTY_ERR_INVALID_ARGUMENT, s)
    else
      match s.heap handle with
      | none => none
      | some dev =>
        let (r, s1) := syscall os s (.sys_write dev.fd_ b size)
        some (wrap32 r, s1)

/-- Function `tty_read`.  `buf` is the address of the caller's buffer, `0`
being a null pointer; the bytes the operating system stores there are not
part of the model.  The value of `read` (an `ssize_t`) is converted to the
`int` the function returns. -/
def tty_read (os : Oracle) (s : State) (handle : tty_handle_t) (buf : Nat) (size : Nat) :
    Option (Int × State) :=
  if handle = 0 ∨ buf = 0 then some (TTY_ERR_INVALID_ARGUMENT, s)
  else
    match s.heap handle with
    | none => none
    | some dev =>
      let (r, s1) := syscall os s (.sys_read dev.fd_ buf size)
      some (wrap32 r, s1)

/-! ## `ptrb.cpp`: the command emitter -/

/-- The array `command` of `do_command` after line 93, for arguments `motor`
and `angle` of type `uint8_t` (values below 256).  The operands of `+` and
`-` are promoted to `int`; `& 0xff` followed by the cast to `uint8_t` is the
remainder modulo 256. -/
def do_command_frame (motor angle : Nat) : List Nat :=
  let command1 : Int := (0xdd + (motor : Int)) % 256
  let command2 : Int := (angle : Int)
  let command3 : Int := (command1 - 220 + command2) % 256
  [0xfd, command1.toNat, command2.toNat, command3.toNat]

/-- Function `do_command`; `sizeof(command)` is 4. -/
def do_command (os : Oracle) (s : State) (handle : tty_handle_t) (motor angle : Nat) :
    Option (Int × State) :=
  if motor > 8 ∨ angle > 220 then some (-1, s)
  else tty_write os s handle (some (do_command_frame motor angle)) 4

/-- An operating system on which every call returns 1. -/
def os_one : Oracle := fun _ _ => ⟨1, 0⟩

/-- The case labels of the `switch` in `to_ttyerror` are pairwise distinct,
as the language requires of a `switch`. -/
def Platform.errno_distinct (P : Platform) : Prop :=
  P.EINTR ≠ P.EINVAL ∧ P.EINTR ≠ P.EPERM ∧ P.EINTR ≠ P.EIO ∧ P.EINTR ≠ P.ENOMEM
    ∧ P.EINVAL ≠ P.EPERM ∧ P.EINVAL ≠ P.EIO ∧ P.EINVAL ≠ P.ENOMEM
    ∧ P.EPERM ≠ P.EIO ∧ P.EPERM ≠ P.ENOMEM ∧ P.EIO ≠ P.ENOMEM

instance (P : Platform) : Decidable P.errno_distinct := by
  unfold Platform.errno_distinct
  infer_instance

/-- The attribute structure described field by field: `c_oflag` and
`c_lflag` are 0; `c_cflag` is the baud code or-ed with `CREAD`, with `CS7` or
`CS8` by `data`, with `PARENB` unless `parity` is none, with `PARODD` when
`parity` is odd, with `CSTOPB` when `stop` is 2, and with `CRTSCTS` for
hardware flow control, `CLOCAL` otherwise; `c_iflag` is `IGNPAR` when
`parity` is none and `INPCK` otherwise. -/
def termios_of_config (P : Platform) (c : tty_config_t) : termios :=
  { c_iflag := if c.parity = TTY_PARITY_NONE then P.IGNPAR else P.INPCK,
    c_oflag := 0,
    c_cflag := to_baudbits P c.baud ||| P.CREAD
      ||| (if c.data = TTY_DATA_7 then P.CS7 else P.CS8)
      ||| (if c.parity = TTY_PARITY_NONE then 0 else P.PARENB)
      ||| (if c.parity = TTY_PARITY_ODD then P.PARODD else 0)
      ||| (if c.stop = TTY_STOP_2 then P.CSTOPB else 0)
      ||| (if c.flow = TTY_FLOW_HARDWARE then P.CRTSCTS else P.CLOCAL),
    c_lflag := 0 }

/-! ## Lemmas on machine integers -/

theorem int_abs_int_sub_of_bounds (t r : Int) (h1 : -2147483647 ≤ t - r)
    (h2 : t - r ≤ 2147483647) : int_abs (int_sub t r) = |t - r| := by
  have hw : wrap32 (t - r) = t - r := by unfold wrap32; omega
  unfold int_abs int_sub
  rw [hw]
  split_ifs with h
  · rw [abs_of_neg h]; unfold wrap32; omega
  · rw [abs_of_nonneg (by omega)]

/-! ## Lemmas on the loop of `to_baudbits` -/

/-- What follows the sentinel is never read. -/
theorem to_baudbits_loop_sentinel (baud : Int) (s : baud_entry_t) (hs : s.ibaud < 0)
    (rest : List baud_entry_t) (es : List baud_entry_t) (min : Int) (ret : Nat) :
    to_baudbits_loop baud (es ++ s :: rest) min ret
      = to_baudbits_loop baud (es ++ [s]) min ret := by
  induction es generalizing min ret with
  | nil => simp [to_baudbits_loop, not_le.mpr hs]
  | cons e es ih =>
    simp only [List.cons_append, to_baudbits_loop]
    split_ifs <;> first | rfl | exact ih _ _

/-- The loop returns either the initial `ret`, when no entry before the
sentinel is nearer than `min`, or the code of the first entry among those
nearest to `baud`, as long as the differences are computed without overflow
(here: they are nonnegative). -/
theorem to_baudbits_loop_spec (baud : Int) (s : baud_entry_t) (hs : s.ibaud < 0)
    (rest : List baud_entry_t) (es : List baud_entry_t)
    (hact : ∀ e ∈ es, 0 ≤ e.ibaud)
    (hpos : ∀ e ∈ es, 0 ≤ int_abs (int_sub e.ibaud baud))
    (min : Int) (ret : Nat) :
    (to_baudbits_loop baud (es ++ s :: rest) min ret = ret
        ∧ ∀ e ∈ es, min ≤ int_abs (int_sub e.ibaud baud))
    ∨ ∃ pre e post, es = pre ++ e :: post
        ∧ to_baudbits_loop baud (es ++ s :: rest) min ret = e.tbaud
        ∧ int_abs (int_sub e.ibaud baud) < min
        ∧ (∀ x ∈ pre, int_abs (int_sub e.ibaud baud) < int_abs (int_sub x.ibaud baud))
        ∧ (∀ x ∈ post, int_abs (int_sub e.ibaud baud) ≤ int_abs (int_sub x.ibaud baud)) := by
  induction es generalizing min ret with
  | nil =>
    left
    simp [to_baudbits_loop, not_le.mpr hs]
  | cons e es ih =>
    have he : 0 ≤ e.ibaud := hact e (List.mem_cons_self _ _)
    have hact1 : ∀ x ∈ es, 0 ≤ x.ibaud := fun x hx => hact x (List.mem_cons_of_mem _ hx)
    have hpos1 : ∀ x ∈ es, 0 ≤ int_abs (int_sub x.ibaud baud) :=
      fun x hx => hpos x (List.mem_cons_of_mem _ hx)
    have hd : 0 ≤ int_abs (int_sub e.ibaud baud) := hpos e (List.mem_cons_self _ _)
    simp only [List.cons_append, to_baudbits_loop, if_pos he]
    by_cases h0 : 0 = int_abs (int_sub e.ibaud baud)
    · rw [if_pos h0]
      by_cases hm : min > int_abs (int_sub e.ibaud baud)
      · right
        refine ⟨[], e, es, rfl, by rw [if_pos hm], hm, by simp, ?_⟩
        intro x hx
        rw [← h0]
        exact hpos1 x hx
      · left
        refine ⟨by rw [if_neg hm], ?_⟩
        intro x hx
        have hx0 : 0 ≤ int_abs (int_sub x.ibaud baud) := hpos x hx
        omega
    · rw [if_neg h0]
      by_cases hm : min > int_abs (int_sub e.ibaud baud)
      · simp only [if_pos hm]
        right
        rcases ih hact1 hpos1 (int_abs (int_sub e.ibaud baud)) e.tbaud with
          ⟨hv, hall⟩ | ⟨pre, x, post, hes, hv, hlt, hpre, hpost⟩
        · exact ⟨[], e, es, rfl, hv, hm, by simp, hall⟩
        · refine ⟨e :: pre, x, post, by rw [hes]; rfl, hv, by omega, ?_, hpost⟩
          intro y hy
          rcases List.mem_cons.mp hy with rfl | hy
          · exact hlt
          · exact hpre y hy
      · simp only [if_neg hm]
        rcases ih hact1 hpos1 min ret with
          ⟨hv, hall⟩ | ⟨pre, x, post, hes, hv, hlt, hpre, hpost⟩
        · left
          refine ⟨hv, ?_⟩
          intro y hy
          rcases List.mem_cons.mp hy with rfl | hy
          · omega
          · exact hall y hy
        · right
          refine ⟨e :: pre, x, post, by rw [hes]; rfl, hv, hlt, ?_, hpost⟩
          intro y hy
          rcases List.mem_cons.mp hy with rfl | hy
          · omega
          · exact hpre y hy

/-! ## Nearest-rate lookup -/

theorem BAUDRATES_eq (P : Platform) : BAUDRATES P = baud_table P ++ [⟨-1, 0⟩] := rfl

theorem baud_table_bounds (P : Platform) :
    ∀ e ∈ baud_table P, 0 ≤ e.ibaud ∧ e.ibaud ≤ 115200 := by
  intro e he
  simp only [baud_table, BAUDRATES, List.take, List.mem_cons] at he
  rcases he with rfl | rfl | rfl | rfl | rfl | rfl | rfl | rfl | rfl | rfl | he
  · exact ⟨by norm_num, by norm_num⟩
  · exact ⟨by norm_num, by norm_num⟩
  · exact ⟨by norm_num, by norm_num⟩
  · exact ⟨by norm_num, by norm_num⟩
  · exact ⟨by norm_num, by norm_num⟩
  · exact ⟨by norm_num, by norm_num⟩
  · exact ⟨by norm_num, by norm_num⟩
  · exact ⟨by norm_num, by norm_num⟩
  · exact ⟨by norm_num, by norm_num⟩
  · exact ⟨by norm_num, by norm_num⟩
  · simp at he

/-- In the range of requests whose differences to all table rates are
representable, `-2147368447 ≤ r ≤ INT_MAX`, `to_baudbits` returns the code of
the first entry among those nearest to `r`. -/
theorem to_baudbits_nearest_of_no_overflow (P : Platform) (r : Int)
    (h1 : -2147368447 ≤ r) (h2 : r ≤ 2147483647) :
    ∃ pre e post, baud_table P = pre ++ e :: post
      ∧ to_baudbits P r = e.tbaud
      ∧ (∀ x ∈ pre, |e.ibaud - r| < |x.ibaud - r|)
      ∧ (∀ x ∈ post, |e.ibaud - r| ≤ |x.ibaud - r|) := by
  have hD : ∀ x ∈ baud_table P, int_abs (int_sub x.ibaud r) = |x.ibaud - r| := by
    intro x hx
    have hb := baud_table_bounds P x hx
    exact int_abs_int_sub_of_bounds _ _ (by omega) (by omega)
  have hpos : ∀ x ∈ baud_table P, 0 ≤ int_abs (int_sub x.ibaud r) := by
    intro x hx
    rw [hD x hx]
    exact abs_nonneg _
  have hact : ∀ x ∈ baud_table P, 0 ≤ x.ibaud := fun x hx => (baud_table_bounds P x hx).1
  have hspec := to_baudbits_loop_spec r ⟨-1, 0⟩ (by decide) [] (baud_table P) hact hpos
    INT_MAX P.B0
  rw [← BAUDRATES_eq] at hspec
  rcases hspec with ⟨_, hall⟩ | ⟨pre, e, post, hes, hv, _, hpre, hpost⟩
  · exfalso
    have ha := hall ⟨0, P.B0⟩ (by simp [baud_table, BAUDRATES])
    have hb := hall ⟨115200, P.B115200⟩ (by simp [baud_table, BAUDRATES])
    rw [hD _ (by simp [baud_table, BAUDRATES])] at ha hb
    simp only [abs_eq_max_neg, INT_MAX] at ha hb
    omega
  · refine ⟨pre, e, post, hes, hv, ?_, ?_⟩
    · intro x hx
      have hxm : x ∈ baud_table P := by rw [hes]; simp [hx]
      have hem : e ∈ baud_table P := by rw [hes]; simp
      rw [← hD x hxm, ← hD e hem]
      exact hpre x hx
    · intro x hx
      have hxm : x ∈ baud_table P := by rw [hes]; simp [hx]
      have hem : e ∈ baud_table P := by rw [hes]; simp
      rw [← hD x hxm, ← hD e hem]
      exact hpost x hx

/-- The same with positions in the table: the entry returned is the one of
lowest index among those of minimal distance to `r`. -/
theorem to_baudbits_first_nearest (P : Platform) (r : Int)
    (h1 : -2147368447 ≤ r) (h2 : r ≤ 2147483647) :
    ∃ (i : Nat) (e : baud_entry_t), (baud_table P)[i]? = some e
      ∧ to_baudbits P r = e.tbaud
      ∧ ∀ (j : Nat) (x : baud_entry_t), (baud_table P)[j]? = some x →
          |e.ibaud - r| ≤ |x.ibaud - r| ∧ (j < i → |e.ibaud - r| < |x.ibaud - r|) := by
  obtain ⟨pre, e, post, hes, hv, hpre, hpost⟩ := to_baudbits_nearest_of_no_overflow P r h1 h2
  refine ⟨pre.length, e, ?_, hv, ?_⟩
  · rw [hes, List.getElem?_append_right (le_refl _)]
    simp
  · intro j x hx
    rw [hes] at hx
    rcases Nat.lt_trichotomy j pre.length with hlt | heq | hgt
    · rw [List.getElem?_append_left hlt] at hx
      have hm := hpre x (List.getElem?_mem hx)
      exact ⟨le_of_lt hm, fun _ => hm⟩
    · subst heq
      rw [List.getElem?_append_right (le_refl _)] at hx
      simp at hx
      subst hx
      exact ⟨le_refl _, fun h => absurd h (lt_irrefl _)⟩
    · rw [List.getElem?_append_right (le_of_lt hgt)] at hx
      obtain ⟨k, hk⟩ : ∃ k, j - pre.length = k + 1 := ⟨j - pre.length - 1, by omega⟩
      rw [hk, List.getElem?_cons_succ] at hx
      have hm := hpost x (List.getElem?_mem hx)
      exact ⟨hm, fun h => absurd h (by omega)⟩

/-- In the no-overflow range a request at or below rate `0` gets `B0`. -/
theorem to_baudbits_low (P : Platform) (r : Int) (h1 : -2147368447 ≤ r) (h2 : r ≤ 0) :
    to_baudbits P r = P.B0 := by
  obtain ⟨i, e, he, hv, hmin⟩ := to_baudbits_first_nearest P r h1 (by omega)
  have hi : i < 10 := by
    have := (List.getElem?_eq_some.mp he).1
    simpa [baud_table, BAUDRATES] using this
  have h0 := hmin 0 ⟨0, P.B0⟩ rfl
  rw [hv]
  interval_cases i <;> simp [baud_table, BAUDRATES] at he <;> subst he
    <;> simp [abs_eq_max_neg] at h0 <;> first | rfl | omega

/-- A request at or above rate `115200` gets `B115200`. -/
theorem to_baudbits_high (P : Platform) (r : Int) (h1 : 115200 ≤ r) (h2 : r ≤ 2147483647) :
    to_baudbits P r = P.B115200 := by
  obtain ⟨i, e, he, hv, hmin⟩ := to_baudbits_first_nearest P r (by omega) h2
  have hi : i < 10 := by
    have := (List.getElem?_eq_some.mp he).1
    simpa [baud_table, BAUDRATES] using this
  have h9 := hmin 9 ⟨115200, P.B115200⟩ rfl
  rw [hv]
  interval_cases i <;> simp [baud_table, BAUDRATES] at he <;> subst he
    <;> simp [abs_eq_max_neg] at h9 <;> first | rfl | omega

/-- A request equal to a table rate gets the code of that entry (all ten
table rates lie in the no-overflow range). -/
theorem to_baudbits_exact (P : Platform) :
    to_baudbits P 0 = P.B0 ∧ to_baudbits P 1200 = P.B1200
      ∧ to_baudbits P 1800 = P.B1800 ∧ to_baudbits P 2400 = P.B2400
      ∧ to_baudbits P 4800 = P.B4800 ∧ to_baudbits P 9600 = P.B9600
      ∧ to_baudbits P 19200 = P.B19200 ∧ to_baudbits P 38400 = P.B38400
      ∧ to_baudbits P 57600 = P.B57600 ∧ to_baudbits P 115200 = P.B115200 :=
  ⟨rfl, rfl, rfl, rfl, rfl, rfl, rfl, rfl, rfl, rfl⟩

/-- The nine midpoints between neighbouring table rates get the code of the
lower neighbour. -/
theorem to_baudbits_midpoints (P : Platform) :
    to_baudbits P 600 = P.B0 ∧ to_baudbits P 1500 = P.B1200
      ∧ to_baudbits P 2100 = P.B1800 ∧ to_baudbits P 3600 = P.B2400
      ∧ to_baudbits P 7200 = P.B4800 ∧ to_baudbits P 14400 = P.B9600
      ∧ to_baudbits P 28800 = P.B19200 ∧ to_baudbits P 48000 = P.B38400
      ∧ to_baudbits P 86400 = P.B57600 :=
  ⟨rfl, rfl, rfl, rfl, rfl, rfl, rfl, rfl, rfl⟩

/-- A tie between two table entries for the minimal distance only happens
at the midpoint of two neighbouring rates. -/
theorem baud_table_tie (P : Platform) (r : Int) (i j : Nat) (a b : baud_entry_t)
    (hi : (baud_table P)[i]? = some a) (hj : (baud_table P)[j]? = some b) (hij : i < j)
    (htie : |a.ibaud - r| = |b.ibaud - r|)
    (hmin : ∀ x ∈ baud_table P, |a.ibaud - r| ≤ |x.ibaud - r|) :
    (i = 0 ∧ r = 600) ∨ (i = 1 ∧ r = 1500) ∨ (i = 2 ∧ r = 2100) ∨ (i = 3 ∧ r = 3600)
      ∨ (i = 4 ∧ r = 7200) ∨ (i = 5 ∧ r = 14400) ∨ (i = 6 ∧ r = 28800)
      ∨ (i = 7 ∧ r = 48000) ∨ (i = 8 ∧ r = 86400) := by
  have hj10 : j < 10 := by
    have := (List.getElem?_eq_some.mp hj).1
    simpa [baud_table, BAUDRATES] using this
  have hi1 : i + 1 < (baud_table P).length := by
    simp only [baud_table, BAUDRATES, List.take, List.length_cons, List.length_nil]
    omega
  obtain ⟨c, hc⟩ : ∃ c, (baud_table P)[i + 1]? = some c := ⟨_, List.getElem?_eq_getElem hi1⟩
  have hn := hmin c (List.getElem?_mem hc)
  clear hmin hi1
  interval_cases j <;> interval_cases i
    <;> simp [baud_table, BAUDRATES] at hi hj hc
    <;> subst hi <;> subst hj <;> subst hc
    <;> simp only [abs_eq_max_neg] at htie hn
    <;> norm_num
    <;> omega

/-- C1 (defect): at the request `-2147483647` the subtraction
`BAUDRATES[i].ibaud - baud` overflows for every table rate but `0`; with
wrap-around arithmetic `to_baudbits` returns the code of rate `115200`,
although rate `0` is strictly nearer to the request. -/
theorem to_baudbits_overflow_not_nearest :
    (∀ P : Platform, to_baudbits P (-2147483647) = P.B115200)
      ∧ to_baudbits linux (-2147483647) ≠ linux.B0
      ∧ |(0 : Int) - (-2147483647)| < |(115200 : Int) - (-2147483647)| :=
  ⟨fun _ => rfl, by decide, by norm_num⟩

/-- C2 (defect): the result is not always the lowest-index entry among those
at minimal distance.  At the request `-2147483647` the entry at index 0
(rate 0) is nearer than every other entry, so it is the only and the
lowest-index one at minimal distance, yet the differences to the other rates
overflow and `to_baudbits` returns the code of the entry at index 9 (rate
115200). -/
theorem to_baudbits_overflow_not_lowest_index :
    (∀ P : Platform, to_baudbits P (-2147483647) = P.B115200)
      ∧ (∀ P : Platform, (baud_table P)[0]? = some ⟨0, P.B0⟩
          ∧ (baud_table P)[9]? = some ⟨115200, P.B115200⟩)
      ∧ (∀ (P : Platform) (j : Nat) (x : baud_entry_t), (baud_table P)[j]? = some x →
          |(0 : Int) - (-2147483647)| ≤ |x.ibaud - (-2147483647)|
            ∧ (0 < j → |(0 : Int) - (-2147483647)| < |x.ibaud - (-2147483647)|))
      ∧ linux.B115200 ≠ linux.B0 := by
  refine ⟨fun _ => rfl, fun _ => ⟨rfl, rfl⟩, ?_, by decide⟩
  intro P j x hx
  have hj : j < 10 := by
    have := (List.getElem?_eq_some.mp hx).1
    simpa [baud_table, BAUDRATES] using this
  interval_cases j <;> simp [baud_table, BAUDRATES] at hx <;> subst hx <;> norm_num

/-- Ties are broken towards the lower rate: when two entries of the table, at
positions `i < j`, are both at the minimal distance from the request `r`,
`to_baudbits` returns the code of the entry at `i`, the one with the lower
rate, and no entry in front of `i` is as near. -/
theorem to_baudbits_tie_lowest (P : Platform) (r : Int) (i j : Nat) (a b : baud_entry_t)
    (hi : (baud_table P)[i]? = some a) (hj : (baud_table P)[j]? = some b) (hij : i < j)
    (htie : |a.ibaud - r| = |b.ibaud - r|)
    (hmin : ∀ x ∈ baud_table P, |a.ibaud - r| ≤ |x.ibaud - r|) :
    to_baudbits P r = a.tbaud ∧ a.ibaud < b.ibaud
      ∧ ∀ (k : Nat) (x : baud_entry_t), k < i → (baud_table P)[k]? = some x →
          |a.ibaud - r| < |x.ibaud - r| := by
  have hr : 0 ≤ r ∧ r ≤ 115200 := by
    rcases baud_table_tie P r i j a b hi hj hij htie hmin with
      h | h | h | h | h | h | h | h | h <;> omega
  obtain ⟨k, e, hk, hv, hfirst⟩ := to_baudbits_first_nearest P r (by omega) (by omega)
  have hlt : a.ibaud < b.ibaud := by
    have hj10 : j < 10 := by
      have := (List.getElem?_eq_some.mp hj).1
      simpa [baud_table, BAUDRATES] using this
    rcases baud_table_tie P r i j a b hi hj hij htie hmin with
      h | h | h | h | h | h | h | h | h
    all_goals
      obtain ⟨rfl, rfl⟩ := h
      simp [baud_table, BAUDRATES] at hi
      subst hi
      interval_cases j <;> simp [baud_table, BAUDRATES] at hj <;> subst hj <;> norm_num
  have hki : k = i := by
    rcases Nat.lt_trichotomy k i with hlt1 | heq | hgt
    · exfalso
      have hek : |e.ibaud - r| = |a.ibaud - r| :=
        le_antisymm (hfirst i a hi).1 (hmin e (List.getElem?_mem hk))
      have hb : |e.ibaud - r| = |b.ibaud - r| := hek.trans htie
      have hmin1 : ∀ x ∈ baud_table P, |e.ibaud - r| ≤ |x.ibaud - r| := by
        intro x hx
        rw [hek]
        exact hmin x hx
      have t1 := baud_table_tie P r k i e a hk hi hlt1 hek hmin1
      have t2 := baud_table_tie P r i j a b hi hj hij htie hmin
      omega
    · exact heq
    · exfalso
      have := (hfirst i a hi).2 hgt
      have := hmin e (List.getElem?_mem hk)
      omega
  subst hki
  rw [hk] at hi
  cases hi
  exact ⟨hv, hlt, fun m x hm hx => (hfirst m x hx).2 hm⟩

theorem to_baudbits_tie_lowest_witness :
    to_baudbits linux 1500 = 9 ∧ (1200 : Int) < 1800
      ∧ ∀ (k : Nat) (x : baud_entry_t), k < 1 → (baud_table linux)[k]? = some x →
          |(1200 : Int) - 1500| < |x.ibaud - 1500| :=
  to_baudbits_tie_lowest linux 1500 1 2 ⟨1200, 9⟩ ⟨1800, 10⟩ rfl rfl (by decide) (by norm_num)
    (by
      intro x hx
      simp only [baud_table, BAUDRATES, List.take, List.mem_cons, List.not_mem_nil,
        or_false] at hx
      rcases hx with rfl | rfl | rfl | rfl | rfl | rfl | rfl | rfl | rfl | rfl <;> norm_num)

/-- C3 (defect): requests at or below rate `0` do not all give `B0`.  For the
request `INT_MIN + 1` the differences to all rates but `0` overflow and the
code of rate `115200` is returned; the same happens at `-(2^31 - 115200)`,
where `std::abs` is applied to `INT_MIN`.  (`INT_MIN` itself gives `B0`.) -/
theorem to_baudbits_negative_not_B0 :
    (∀ P : Platform, to_baudbits P (INT_MIN + 1) = P.B115200)
      ∧ (∀ P : Platform, to_baudbits P (-2147368448) = P.B115200)
      ∧ (∀ P : Platform, to_baudbits P INT_MIN = P.B0)
      ∧ INT_MIN + 1 ≤ 0 ∧ linux.B115200 ≠ linux.B0 :=
  ⟨fun _ => rfl, fun _ => rfl, fun _ => rfl, by decide, by decide⟩

/-! ## Configuration -/

theorem tty_set_config_attr_invalid (P : Platform) (c : tty_config_t) (h : ¬ valid_config c) :
    tty_set_config_attr P c = .error TTY_ERR_INVALID_ARGUMENT := by
  unfold valid_config at h
  simp only [tty_set_config_attr, tty_set_config_data, tty_set_config_parity,
    tty_set_config_stop, tty_set_config_flow, TTY_DATA_7, TTY_DATA_8, TTY_PARITY_NONE,
    TTY_PARITY_ODD, TTY_PARITY_EVEN, TTY_STOP_1, TTY_STOP_2, TTY_FLOW_NONE, TTY_FLOW_HARDWARE]
  split_ifs <;> first | rfl | (exfalso; omega)

theorem tty_set_config_attr_valid (P : Platform) (c : tty_config_t) (h : valid_config c) :
    ∃ attr, tty_set_config_attr P c = .ok attr := by
  unfold valid_config at h
  simp only [tty_set_config_attr, tty_set_config_data, tty_set_config_parity,
    tty_set_config_stop, tty_set_config_flow, TTY_DATA_7, TTY_DATA_8, TTY_PARITY_NONE,
    TTY_PARITY_ODD, TTY_PARITY_EVEN, TTY_STOP_1, TTY_STOP_2, TTY_FLOW_NONE, TTY_FLOW_HARDWARE]
  split_ifs <;> first | exact ⟨_, rfl⟩ | (exfalso; omega)

theorem tty_set_config_attr_ok_iff (P : Platform) (c : tty_config_t) :
    (∃ attr, tty_set_config_attr P c = .ok attr) ↔ valid_config c := by
  constructor
  · rintro ⟨attr, hattr⟩
    by_contra hnv
    rw [tty_set_config_attr_invalid P c hnv] at hattr
    cases hattr
  · exact tty_set_config_attr_valid P c

theorem to_ttyerror_ne_ok (P : Platform) (err : Int) : to_ttyerror P err ≠ TTY_ERR_OK := by
  unfold to_ttyerror
  split_ifs <;> decide

/-- Result of `tty_set_config` on a non-null handle and a field-valid
configuration, in terms of the answer to the one `tcsetattr` call it makes. -/
theorem tty_set_config_valid (P : Platform) (os : Oracle) (s : State) (h : tty_handle_t)
    (dev : tty_dev_t) (c : tty_config_t) (attr : termios)
    (hh : h ≠ 0) (hlive : s.heap h = some dev) (hattr : tty_set_config_attr P c = .ok attr) :
    tty_set_config P os s h (some c)
      = if 0 > (os s.trace (.sys_tcsetattr dev.fd_ P.TCSADRAIN attr)).ret then
          some (to_ttyerror P (os s.trace (.sys_tcsetattr dev.fd_ P.TCSADRAIN attr)).err,
            (syscall os s (.sys_tcsetattr dev.fd_ P.TCSADRAIN attr)).2)
        else
          some (TTY_ERR_OK,
            (syscall os s (.sys_tcsetattr dev.fd_ P.TCSADRAIN attr)).2.store h
              { dev with config_ := c }) := by
  simp only [tty_set_config, if_neg hh, hattr, hlive, syscall]
  split_ifs <;> rfl

theorem tty_get_config_store (s : State) (h : tty_handle_t) (d : tty_dev_t)
    (out : tty_config_t) (hh : h ≠ 0) :
    tty_get_config (s.store h d) h (some out) = some (TTY_ERR_OK, some d.config_) := by
  simp [tty_get_config, State.store, hh]

theorem tty_get_config_live (s : State) (h : tty_handle_t) (d : tty_dev_t)
    (out : tty_config_t) (hh : h ≠ 0) (hlive : s.heap h = some d) :
    tty_get_config s h (some out) = some (TTY_ERR_OK, some d.config_) := by
  simp [tty_get_config, hlive, hh]

/-- C4: on an open handle, when `tty_set_config` accepts a field-valid
configuration (returns `TTY_ERR_OK`), a following `tty_get_config` returns
`TTY_ERR_OK` and exactly the supplied struct, all six fields, whatever the
baud rate and the flags are. -/
theorem tty_set_config_get_config (P : Platform) (os : Oracle) (s s1 : State)
    (h : tty_handle_t) (dev : tty_dev_t) (c out : tty_config_t)
    (hh : h ≠ INVALID_TTY_HANDLE) (hlive : s.heap h = some dev) (hvalid : valid_config c)
    (hok : tty_set_config P os s h (some c) = some (TTY_ERR_OK, s1)) :
    tty_get_config s1 h (some out) = some (TTY_ERR_OK, some c) := by
  obtain ⟨attr, hattr⟩ := tty_set_config_attr_valid P c hvalid
  rw [tty_set_config_valid P os s h dev c attr hh hlive hattr] at hok
  split_ifs at hok with hr
  · simp only [Option.some.injEq, Prod.mk.injEq] at hok
    exact absurd hok.1 (to_ttyerror_ne_ok P _)
  · simp only [Option.some.injEq, Prod.mk.injEq, true_and] at hok
    rw [← hok]
    exact tty_get_config_store _ h _ out hh

theorem tty_set_config_get_config_witness :
    ∃ s1, tty_set_config linux (fun _ _ => ⟨0, 0⟩)
          (State.init.store 1 (tty_dev_t.ctor 3)) 1 (some ⟨9600, 7, 2, 2, 1, 5⟩)
        = some (TTY_ERR_OK, s1)
      ∧ tty_get_config s1 1 (some ⟨0, 0, 0, 0, 0, 0⟩)
        = some (TTY_ERR_OK, some ⟨9600, 7, 2, 2, 1, 5⟩) :=
  ⟨_, rfl, tty_set_config_get_config linux (fun _ _ => ⟨0, 0⟩)
    (State.init.store 1 (tty_dev_t.ctor 3)) _ 1 (tty_dev_t.ctor 3) ⟨9600, 7, 2, 2, 1, 5⟩
    ⟨0, 0, 0, 0, 0, 0⟩ (by decide) rfl (by decide) rfl⟩

/-- C5: on an open handle, a configuration with an invalid field (`data`
outside 7, 8, or `parity` outside 0, 1, 2, or `stop` outside 1, 2, or `flow`
outside 0, 1) makes `tty_set_config` return `TTY_ERR_INVALID_ARGUMENT` with
the state untouched: no call to the operating system is made (the trace is
the same, so there is no `tcsetattr`), and `tty_get_config` still returns the
previous configuration. -/
theorem tty_set_config_invalid_field (P : Platform) (os : Oracle) (s : State)
    (h : tty_handle_t) (dev : tty_dev_t) (c out : tty_config_t)
    (hh : h ≠ INVALID_TTY_HANDLE) (hlive : s.heap h = some dev)
    (hinv : (c.data ≠ 7 ∧ c.data ≠ 8) ∨ (c.parity ≠ 0 ∧ c.parity ≠ 1 ∧ c.parity ≠ 2)
      ∨ (c.stop ≠ 1 ∧ c.stop ≠ 2) ∨ (c.flow ≠ 0 ∧ c.flow ≠ 1)) :
    tty_set_config P os s h (some c) = some (TTY_ERR_INVALID_ARGUMENT, s)
      ∧ (∀ s1 rc, tty_set_config P os s h (some c) = some (rc, s1) → s1.trace = s.trace)
      ∧ tty_get_config s h (some out) = some (TTY_ERR_OK, some dev.config_) := by
  have hnv : ¬ valid_config c := by
    unfold valid_config
    omega
  have hh0 : ¬ h = 0 := hh
  have hres : tty_set_config P os s h (some c) = some (TTY_ERR_INVALID_ARGUMENT, s) := by
    simp only [tty_set_config, if_neg hh0, tty_set_config_attr_invalid P c hnv]
  refine ⟨hres, ?_, tty_get_config_live s h dev out hh hlive⟩
  intro s1 rc hs
  rw [hres] at hs
  simp only [Option.some.injEq, Prod.mk.injEq] at hs
  rw [← hs.2]

theorem tty_set_config_invalid_field_witness :
    tty_set_config linux (fun _ _ => ⟨0, 0⟩) (State.init.store 1 (tty_dev_t.ctor 3)) 1
          (some ⟨9600, 6, 0, 1, 0, 0⟩)
        = some (TTY_ERR_INVALID_ARGUMENT, State.init.store 1 (tty_dev_t.ctor 3))
      ∧ (∀ s1 rc, tty_set_config linux (fun _ _ => ⟨0, 0⟩)
            (State.init.store 1 (tty_dev_t.ctor 3)) 1 (some ⟨9600, 6, 0, 1, 0, 0⟩)
          = some (rc, s1) → s1.trace = (State.init.store 1 (tty_dev_t.ctor 3)).trace)
      ∧ tty_get_config (State.init.store 1 (tty_dev_t.ctor 3)) 1 (some ⟨1, 1, 1, 1, 1, 1⟩)
        = some (TTY_ERR_OK, some ⟨0, 8, 0, 1, 0, 0⟩) :=
  tty_set_config_invalid_field linux (fun _ _ => ⟨0, 0⟩)
    (State.init.store 1 (tty_dev_t.ctor 3)) 1 (tty_dev_t.ctor 3) ⟨9600, 6, 0, 1, 0, 0⟩
    ⟨1, 1, 1, 1, 1, 1⟩ (by decide) rfl (by decide)

/-- C6: on an open handle and for a field-valid configuration (one for which
lines 93-135 build an attribute structure `attr`, see
`tty_set_config_attr_ok_iff`), if the `tcsetattr` call fails (negative return value) leaving `e` in `errno`, then
`tty_set_config` returns `to_ttyerror e`, which is not `TTY_ERR_OK`, that
call is the only one made, and `tty_get_config` afterwards still returns the
configuration cached before the call. -/
theorem tty_set_config_tcsetattr_failure (P : Platform) (os : Oracle) (s : State)
    (h : tty_handle_t) (dev : tty_dev_t) (c out : tty_config_t) (attr : termios) (e : Int)
    (hh : h ≠ INVALID_TTY_HANDLE) (hlive : s.heap h = some dev)
    (hattr : tty_set_config_attr P c = .ok attr)
    (hfail : (os s.trace (.sys_tcsetattr dev.fd_ P.TCSADRAIN attr)).ret < 0)
    (herr : (os s.trace (.sys_tcsetattr dev.fd_ P.TCSADRAIN attr)).err = e) :
    ∃ s1, tty_set_config P os s h (some c) = some (to_ttyerror P e, s1)
      ∧ to_ttyerror P e ≠ TTY_ERR_OK
      ∧ s1.trace = s.trace ++ [.sys_tcsetattr dev.fd_ P.TCSADRAIN attr]
      ∧ tty_get_config s1 h (some out) = some (TTY_ERR_OK, some dev.config_) := by
  refine ⟨(syscall os s (.sys_tcsetattr dev.fd_ P.TCSADRAIN attr)).2, ?_,
    to_ttyerror_ne_ok P e, rfl, ?_⟩
  · rw [tty_set_config_valid P os s h dev c attr hh hlive hattr, if_pos hfail, herr]
  · exact tty_get_config_live _ h dev out hh hlive

theorem tty_set_config_tcsetattr_failure_witness :
    ∃ s1, tty_set_config linux (fun _ _ => ⟨-1, 5⟩) (State.init.store 1 (tty_dev_t.ctor 3)) 1
          (some ⟨9600, 7, 2, 2, 1, 5⟩) = some (to_ttyerror linux 5, s1)
      ∧ to_ttyerror linux 5 ≠ TTY_ERR_OK
      ∧ s1.trace = (State.init.store 1 (tty_dev_t.ctor 3)).trace
          ++ [.sys_tcsetattr 3 1 ⟨16, 0, 2147484141, 0⟩]
      ∧ tty_get_config s1 1 (some ⟨1, 1, 1, 1, 1, 1⟩)
          = some (TTY_ERR_OK, some ⟨0, 8, 0, 1, 0, 0⟩) :=
  tty_set_config_tcsetattr_failure linux (fun _ _ => ⟨-1, 5⟩)
    (State.init.store 1 (tty_dev_t.ctor 3)) 1 (tty_dev_t.ctor 3) ⟨9600, 7, 2, 2, 1, 5⟩
    ⟨1, 1, 1, 1, 1, 1⟩ ⟨16, 0, 2147484141, 0⟩ 5 (by decide) rfl rfl (by decide) rfl

/-! ## Opening a device -/

/-- Result of `tty_open_device` when the `open` call fails. -/
theorem tty_open_device_of_open_failed (P : Platform) (os : Oracle) (s : State)
    (slot : tty_handle_t) (path : String)
    (hfail : (os s.trace (.sys_open path (P.O_RDWR ||| P.O_NOCTTY))).ret < 0) :
    tty_open_device P os s (some slot) path
      = some (to_ttyerror P (os s.trace (.sys_open path (P.O_RDWR ||| P.O_NOCTTY))).err,
          some INVALID_TTY_HANDLE,
          (syscall os s (.sys_open path (P.O_RDWR ||| P.O_NOCTTY))).2) := by
  simp [tty_open_device, syscall, hfail]

/-- The state in which `tty_open_device` runs `tty_set_config`, after a
successful `open` that returned `fd`: the call is recorded and the new object
is stored. -/
theorem tty_open_device_of_open_ok (P : Platform) (os : Oracle) (s : State)
    (slot : tty_handle_t) (path : String)
    (hopen : 0 ≤ (os s.trace (.sys_open path (P.O_RDWR ||| P.O_NOCTTY))).ret) :
    tty_open_device P os s (some slot) path
      = (tty_set_config P os
          (new_tty_dev_t (syscall os s (.sys_open path (P.O_RDWR ||| P.O_NOCTTY))).2
            (os s.trace (.sys_open path (P.O_RDWR ||| P.O_NOCTTY))).ret).2
          (s.brk + 1) (some def_config)).map
          (fun r => (TTY_ERR_OK, some (s.brk + 1), r.2)) := by
  have hnot : ¬ ((os s.trace (.sys_open path (P.O_RDWR ||| P.O_NOCTTY))).ret < 0) :=
    not_lt.mpr hopen
  simp only [tty_open_device, Option.isNone_some, Bool.false_eq_true, if_false, gt_iff_lt,
    syscall, new_tty_dev_t, if_neg hnot]
  cases tty_set_config P os _ (s.brk + 1) (some def_config) <;> rfl

/-- C7 (as stated, refuted): when `open` fails with `ENOENT`, the code
returned is `TTY_ERR_UNKNOWN`, not `TTY_ERR_IO_ERROR`. -/
theorem tty_open_device_ENOENT_not_io_error :
    (tty_open_device linux (fun _ _ => ⟨-1, linux_ENOENT⟩) State.init (some 7)
        "/dev/ttyUSB0").map (fun r => (r.1, r.2.1))
      = some (TTY_ERR_UNKNOWN, some INVALID_TTY_HANDLE)
    ∧ TTY_ERR_UNKNOWN ≠ TTY_ERR_IO_ERROR :=
  ⟨rfl, by decide⟩

/-- C7 (amended): when the `open` call fails leaving `e` in `errno` (and the
handle slot is non-null), `tty_open_device` returns `to_ttyerror e` and stores
`INVALID_TTY_HANDLE` in the slot; no object is created.  That code is never
`TTY_ERR_OK`, it is `TTY_ERR_IO_ERROR` only for `e = EIO`, and it is
`TTY_ERR_UNKNOWN` for every `e` outside the five values `to_ttyerror` names
(`ENOENT` among them). -/
theorem tty_open_device_open_failure (P : Platform) (os : Oracle) (s : State)
    (slot : tty_handle_t) (path : String) (e : Int)
    (hfail : (os s.trace (.sys_open path (P.O_RDWR ||| P.O_NOCTTY))).ret < 0)
    (herr : (os s.trace (.sys_open path (P.O_RDWR ||| P.O_NOCTTY))).err = e) :
    ∃ s1, tty_open_device P os s (some slot) path
        = some (to_ttyerror P e, some INVALID_TTY_HANDLE, s1)
      ∧ s1.heap = s.heap
      ∧ to_ttyerror P e ≠ TTY_ERR_OK
      ∧ (to_ttyerror P e = TTY_ERR_IO_ERROR → e = P.EIO)
      ∧ (e ≠ P.EINTR → e ≠ P.EINVAL → e ≠ P.EPERM → e ≠ P.EIO → e ≠ P.ENOMEM →
          to_ttyerror P e = TTY_ERR_UNKNOWN) := by
  refine ⟨(syscall os s (.sys_open path (P.O_RDWR ||| P.O_NOCTTY))).2, ?_, rfl,
    to_ttyerror_ne_ok P e, ?_, ?_⟩
  · rw [tty_open_device_of_open_failed P os s slot path hfail, herr]
  · unfold to_ttyerror
    split_ifs with h1 h2 h3 h4 h5
    all_goals first | (intro h; exact absurd h (by decide)) | (intro _; assumption)
  · intro h1 h2 h3 h4 h5
    simp [to_ttyerror, h1, h2, h3, h4, h5]

theorem tty_open_device_open_failure_witness :
    ∃ s1, tty_open_device linux (fun _ _ => ⟨-1, linux_ENOENT⟩) State.init (some 7)
          "/dev/ttyUSB0" = some (to_ttyerror linux linux_ENOENT, some INVALID_TTY_HANDLE, s1)
      ∧ s1.heap = State.init.heap
      ∧ to_ttyerror linux linux_ENOENT ≠ TTY_ERR_OK
      ∧ (to_ttyerror linux linux_ENOENT = TTY_ERR_IO_ERROR → linux_ENOENT = linux.EIO)
      ∧ (linux_ENOENT ≠ linux.EINTR → linux_ENOENT ≠ linux.EINVAL → linux_ENOENT ≠ linux.EPERM
          → linux_ENOENT ≠ linux.EIO → linux_ENOENT ≠ linux.ENOMEM
          → to_ttyerror linux linux_ENOENT = TTY_ERR_UNKNOWN) :=
  tty_open_device_open_failure linux (fun _ _ => ⟨-1, linux_ENOENT⟩) State.init 7
    "/dev/ttyUSB0" linux_ENOENT (by decide) rfl

/-- C8: whenever the `open` call succeeds (and the handle slot is non-null),
`tty_open_device` returns `TTY_ERR_OK` and leaves in the slot a handle that
is not `INVALID_TTY_HANDLE` and points to a live object holding the
descriptor `open` returned, whatever the oracle answers to the `tcsetattr`
call of the default-configuration step. -/
theorem tty_open_device_open_success (P : Platform) (os : Oracle) (s : State)
    (slot : tty_handle_t) (path : String)
    (hopen : 0 ≤ (os s.trace (.sys_open path (P.O_RDWR ||| P.O_NOCTTY))).ret) :
    ∃ h s3 dev, tty_open_device P os s (some slot) path = some (TTY_ERR_OK, some h, s3)
      ∧ h ≠ INVALID_TTY_HANDLE
      ∧ s3.heap h = some dev
      ∧ dev.fd_ = (os s.trace (.sys_open path (P.O_RDWR ||| P.O_NOCTTY))).ret := by
  obtain ⟨attr, hattr⟩ := tty_set_config_attr_valid P def_config (by decide)
  rw [tty_open_device_of_open_ok P os s slot path hopen,
    tty_set_config_valid P os _ (s.brk + 1)
      (tty_dev_t.ctor (os s.trace (.sys_open path (P.O_RDWR ||| P.O_NOCTTY))).ret)
      def_config attr (Nat.succ_ne_zero _)
      (by simp [new_tty_dev_t, State.store, syscall]) hattr]
  split_ifs with hr
  · exact ⟨s.brk + 1, _,
      tty_dev_t.ctor (os s.trace (.sys_open path (P.O_RDWR ||| P.O_NOCTTY))).ret,
      rfl, Nat.succ_ne_zero _, by simp [new_tty_dev_t, State.store, syscall], rfl⟩
  · exact ⟨s.brk + 1, _,
      { tty_dev_t.ctor (os s.trace (.sys_open path (P.O_RDWR ||| P.O_NOCTTY))).ret with
        config_ := def_config },
      rfl, Nat.succ_ne_zero _, by simp [new_tty_dev_t, State.store, syscall], rfl⟩

theorem tty_open_device_open_success_witness :
    ∃ h s3 dev, tty_open_device linux os_open_only State.init (some 7) "/dev/ttyUSB0"
        = some (TTY_ERR_OK, some h, s3)
      ∧ h ≠ INVALID_TTY_HANDLE
      ∧ s3.heap h = some dev
      ∧ dev.fd_ = 3 :=
  tty_open_device_open_success linux os_open_only State.init 7 "/dev/ttyUSB0" (by decide)

/-- The attribute structure `tty_set_config` builds for `def_config`. -/
theorem tty_set_config_attr_def_config (P : Platform) :
    tty_set_config_attr P def_config
      = .ok ⟨P.IGNPAR, 0, P.B4800 ||| P.CREAD ||| P.CS8 ||| P.CLOCAL, 0⟩ := by
  have hb : to_baudbits P 4800 = P.B4800 := rfl
  simp [tty_set_config_attr, tty_set_config_data, tty_set_config_parity,
    tty_set_config_stop, tty_set_config_flow, def_config, TTY_DATA_7, TTY_DATA_8,
    TTY_PARITY_NONE, TTY_STOP_1, TTY_STOP_2, TTY_FLOW_NONE, TTY_FLOW_HARDWARE, hb]

/-- C9 (as stated, refuted): the device opens, the `tcsetattr` call of the
default-configuration step fails; `tty_open_device` returns `TTY_ERR_OK` and
the following `tty_get_config` returns baud `0`, not `4800`. -/
theorem tty_open_device_get_config_not_default :
    open_then_get_config linux os_open_only State.init 7 "/dev/ttyUSB0" ⟨1, 1, 1, 1, 1, 1⟩
      = some (TTY_ERR_OK, TTY_ERR_OK, some ⟨0, 8, 0, 1, 0, 0⟩)
    ∧ (⟨0, 8, 0, 1, 0, 0⟩ : tty_config_t) ≠ ⟨4800, 8, 0, 1, 0, 0⟩ :=
  ⟨rfl, by decide⟩

/-- C9 (amended): after a successful `tty_open_device`, `tty_get_config` on
the returned handle returns `TTY_ERR_OK` and: the built-in default
configuration (baud 4800, data 8, parity none, stop 1, flow none, flags 0)
when the `tcsetattr` call of the default-configuration step succeeded; the
configuration set by the constructor of `tty_dev_t` (baud 0, data 8, parity
none, stop 1, flow none, flags 0) when that call failed. -/
theorem tty_open_device_get_config (P : Platform) (os : Oracle) (s s3 : State)
    (slot h : tty_handle_t) (path : String) (out : tty_config_t)
    (hok : tty_open_device P os s (some slot) path = some (TTY_ERR_OK, some h, s3)) :
    tty_get_config s3 h (some out)
      = some (TTY_ERR_OK, some
          (if 0 > (os (s.trace ++ [.sys_open path (P.O_RDWR ||| P.O_NOCTTY)])
                (.sys_tcsetattr (os s.trace (.sys_open path (P.O_RDWR ||| P.O_NOCTTY))).ret
                  P.TCSADRAIN
                  ⟨P.IGNPAR, 0, P.B4800 ||| P.CREAD ||| P.CS8 ||| P.CLOCAL, 0⟩)).ret
            then ⟨0, 8, 0, 1, 0, 0⟩ else ⟨4800, 8, 0, 1, 0, 0⟩)) := by
  by_cases hfail : (os s.trace (.sys_open path (P.O_RDWR ||| P.O_NOCTTY))).ret < 0
  · rw [tty_open_device_of_open_failed P os s slot path hfail] at hok
    simp only [Option.some.injEq, Prod.mk.injEq] at hok
    exact absurd hok.1 (to_ttyerror_ne_ok P _)
  · rw [tty_open_device_of_open_ok P os s slot path (not_lt.mp hfail),
      tty_set_config_valid P os _ (s.brk + 1)
        (tty_dev_t.ctor (os s.trace (.sys_open path (P.O_RDWR ||| P.O_NOCTTY))).ret)
        def_config _ (Nat.succ_ne_zero _)
        (by simp [new_tty_dev_t, State.store, syscall])
        (tty_set_config_attr_def_config P)] at hok
    by_cases hr : 0 > (os (s.trace ++ [.sys_open path (P.O_RDWR ||| P.O_NOCTTY)])
                (.sys_tcsetattr (os s.trace (.sys_open path (P.O_RDWR ||| P.O_NOCTTY))).ret
                  P.TCSADRAIN
                  ⟨P.IGNPAR, 0, P.B4800 ||| P.CREAD ||| P.CS8 ||| P.CLOCAL, 0⟩)).ret
    · rw [if_pos hr]
      rw [if_pos (by exact hr)] at hok
      simp only [Option.map_some', Option.some.injEq, Prod.mk.injEq, true_and] at hok
      obtain ⟨hh, hs⟩ := hok
      subst hh
      subst hs
      exact tty_get_config_live _ _
        (tty_dev_t.ctor (os s.trace (.sys_open path (P.O_RDWR ||| P.O_NOCTTY))).ret) out
        (Nat.succ_ne_zero _) (by simp [new_tty_dev_t, State.store, syscall])
    · rw [if_neg hr]
      rw [if_neg (by exact hr)] at hok
      simp only [Option.map_some', Option.some.injEq, Prod.mk.injEq, true_and] at hok
      obtain ⟨hh, hs⟩ := hok
      subst hh
      subst hs
      exact tty_get_config_store _ _ _ out (Nat.succ_ne_zero _)

theorem tty_open_device_get_config_witness :
    ∃ s3, tty_open_device linux os_open_only State.init (some 7) "/dev/ttyUSB0"
        = some (TTY_ERR_OK, some 1, s3)
      ∧ tty_get_config s3 1 (some ⟨1, 1, 1, 1, 1, 1⟩)
        = some (TTY_ERR_OK, some
          (if 0 > (os_open_only (State.init.trace
                    ++ [.sys_open "/dev/ttyUSB0" (linux.O_RDWR ||| linux.O_NOCTTY)])
                (.sys_tcsetattr (os_open_only State.init.trace
                    (.sys_open "/dev/ttyUSB0" (linux.O_RDWR ||| linux.O_NOCTTY))).ret
                  linux.TCSADRAIN
                  ⟨linux.IGNPAR, 0,
                    linux.B4800 ||| linux.CREAD ||| linux.CS8 ||| linux.CLOCAL, 0⟩)).ret
            then ⟨0, 8, 0, 1, 0, 0⟩ else ⟨4800, 8, 0, 1, 0, 0⟩)) :=
  ⟨_, rfl, tty_open_device_get_config linux os_open_only State.init _ 7 1 "/dev/ttyUSB0"
    ⟨1, 1, 1, 1, 1, 1⟩ rfl⟩

/-! ## Error strings -/

/-- C10: `tty_get_error_string` is total.  For each code in `0..6` it
returns the element of `ERROR_MESSAGES` at that index, which is the fixed
string of the code; for every code below `0` or from `7` on it returns the
literal `"unknown error"` and does not index the table. -/
theorem tty_get_error_string_total (err : Int) :
    tty_get_error_string err
        = some (if err = 0 then "no error"
          else if err = 1 then "inavlid argument"
          else if err = 2 then "operation not permitted"
          else if err = 3 then "I/O error"
          else if err = 4 then "insufficient memory"
          else if err = 5 then "interrupted"
          else "unknown error")
      ∧ tty_get_error_string_expr err
        = (if 0 ≤ err ∧ err < 7 then .table err else .literal "unknown error") := by
  by_cases h : 0 ≤ err ∧ err < 7
  · obtain ⟨h0, h7⟩ := h
    interval_cases err <;> exact ⟨rfl, rfl⟩
  · have hc : err < 0 ∨ err ≥ COUNT_OF_TTY_ERRORS := by
      unfold COUNT_OF_TTY_ERRORS
      omega
    have h0 : err ≠ 0 := by omega
    have h1 : err ≠ 1 := by omega
    have h2 : err ≠ 2 := by omega
    have h3 : err ≠ 3 := by omega
    have h4 : err ≠ 4 := by omega
    have h5 : err ≠ 5 := by omega
    simp only [tty_get_error_string, tty_get_error_string_expr, if_pos hc,
      error_string_expr.value, if_neg h, if_neg h0, if_neg h1, if_neg h2, if_neg h3,
      if_neg h4, if_neg h5, and_self]

/-! ## Error taxonomy -/

theorem to_ttyerror_range (P : Platform) (err : Int) :
    1 ≤ to_ttyerror P err ∧ to_ttyerror P err ≤ 6 := by
  unfold to_ttyerror
  split_ifs <;> decide

/-- C11: with pairwise distinct case labels, `to_ttyerror` maps `EINTR`,
`EINVAL`, `EPERM`, `EIO`, `ENOMEM` to `TTY_ERR_INTERRUPTED`,
`TTY_ERR_INVALID_ARGUMENT`, `TTY_ERR_NO_PERMISSION`, `TTY_ERR_IO_ERROR`,
`TTY_ERR_INSUFFICIENT_MEMORY`, five distinct codes; it maps an `errno` value
to `TTY_ERR_UNKNOWN` exactly when it is none of the five; and its result is
always one of the codes 1..6, never `TTY_ERR_OK`. -/
theorem to_ttyerror_mapping (P : Platform) (hd : P.errno_distinct) :
    to_ttyerror P P.EINTR = TTY_ERR_INTERRUPTED
      ∧ to_ttyerror P P.EINVAL = TTY_ERR_INVALID_ARGUMENT
      ∧ to_ttyerror P P.EPERM = TTY_ERR_NO_PERMISSION
      ∧ to_ttyerror P P.EIO = TTY_ERR_IO_ERROR
      ∧ to_ttyerror P P.ENOMEM = TTY_ERR_INSUFFICIENT_MEMORY
      ∧ [TTY_ERR_INTERRUPTED, TTY_ERR_INVALID_ARGUMENT, TTY_ERR_NO_PERMISSION,
          TTY_ERR_IO_ERROR, TTY_ERR_INSUFFICIENT_MEMORY].Nodup
      ∧ (∀ e : Int, to_ttyerror P e = TTY_ERR_UNKNOWN
          ↔ (e ≠ P.EINTR ∧ e ≠ P.EINVAL ∧ e ≠ P.EPERM ∧ e ≠ P.EIO ∧ e ≠ P.ENOMEM))
      ∧ (∀ e : Int, 1 ≤ to_ttyerror P e ∧ to_ttyerror P e ≤ 6
          ∧ to_ttyerror P e ≠ TTY_ERR_OK) := by
  obtain ⟨h1, h2, h3, h4, h5, h6, h7, h8, h9, h10⟩ := hd
  refine ⟨?_, ?_, ?_, ?_, ?_, by decide, ?_, ?_⟩
  · simp [to_ttyerror]
  · simp [to_ttyerror, Ne.symm h1]
  · simp [to_ttyerror, Ne.symm h2, Ne.symm h5]
  · simp [to_ttyerror, Ne.symm h3, Ne.symm h6, Ne.symm h8]
  · simp [to_ttyerror, Ne.symm h4, Ne.symm h7, Ne.symm h9, Ne.symm h10]
  · intro e
    unfold to_ttyerror
    split_ifs with a b c d f
    · exact ⟨fun h => absurd h (by decide), fun h => absurd a h.1⟩
    · exact ⟨fun h => absurd h (by decide), fun h => absurd b h.2.1⟩
    · exact ⟨fun h => absurd h (by decide), fun h => absurd c h.2.2.1⟩
    · exact ⟨fun h => absurd h (by decide), fun h => absurd d h.2.2.2.1⟩
    · exact ⟨fun h => absurd h (by decide), fun h => absurd f h.2.2.2.2⟩
    · exact ⟨fun _ => ⟨a, b, c, d, f⟩, fun _ => rfl⟩
  · intro e
    exact ⟨(to_ttyerror_range P e).1, (to_ttyerror_range P e).2, to_ttyerror_ne_ok P e⟩

theorem to_ttyerror_mapping_witness :
    to_ttyerror linux linux.EINTR = TTY_ERR_INTERRUPTED
      ∧ to_ttyerror linux linux.EINVAL = TTY_ERR_INVALID_ARGUMENT
      ∧ to_ttyerror linux linux.EPERM = TTY_ERR_NO_PERMISSION
      ∧ to_ttyerror linux linux.EIO = TTY_ERR_IO_ERROR
      ∧ to_ttyerror linux linux.ENOMEM = TTY_ERR_INSUFFICIENT_MEMORY
      ∧ [TTY_ERR_INTERRUPTED, TTY_ERR_INVALID_ARGUMENT, TTY_ERR_NO_PERMISSION,
          TTY_ERR_IO_ERROR, TTY_ERR_INSUFFICIENT_MEMORY].Nodup
      ∧ (∀ e : Int, to_ttyerror linux e = TTY_ERR_UNKNOWN
          ↔ (e ≠ linux.EINTR ∧ e ≠ linux.EINVAL ∧ e ≠ linux.EPERM ∧ e ≠ linux.EIO
              ∧ e ≠ linux.ENOMEM))
      ∧ (∀ e : Int, 1 ≤ to_ttyerror linux e ∧ to_ttyerror linux e ≤ 6
          ∧ to_ttyerror linux e ≠ TTY_ERR_OK) :=
  to_ttyerror_mapping linux (by decide)

/-! ## Writing and reading -/

theorem wrap32_of_int (r : Int) (h1 : INT_MIN ≤ r) (h2 : r ≤ INT_MAX) : wrap32 r = r := by
  unfold INT_MIN at h1
  unfold INT_MAX at h2
  unfold wrap32
  omega

/-- Result of `tty_write` on a live handle and a non-null buffer. -/
theorem tty_write_live (os : Oracle) (s : State) (h : tty_handle_t) (dev : tty_dev_t)
    (b : List Nat) (n : Nat) (hh : h ≠ INVALID_TTY_HANDLE) (hlive : s.heap h = some dev) :
    tty_write os s h (some b) n
      = some (wrap32 (os s.trace (.sys_write dev.fd_ b n)).ret,
          (syscall os s (.sys_write dev.fd_ b n)).2) := by
  have hh0 : ¬ h = 0 := hh
  simp only [tty_write, if_neg hh0, hlive, syscall]

/-- Result of `tty_read` on a live handle and a non-null buffer. -/
theorem tty_read_live (os : Oracle) (s : State) (h : tty_handle_t) (dev : tty_dev_t)
    (buf n : Nat) (hh : h ≠ INVALID_TTY_HANDLE) (hlive : s.heap h = some dev)
    (hbuf : buf ≠ 0) :
    tty_read os s h buf n
      = some (wrap32 (os s.trace (.sys_read dev.fd_ buf n)).ret,
          (syscall os s (.sys_read dev.fd_ buf n)).2) := by
  have hh0 : ¬ h = 0 := hh
  have hc : ¬ (h = 0 ∨ buf = 0) := by
    rintro (h1 | h1)
    · exact hh0 h1
    · exact hbuf h1
  simp only [tty_read, if_neg hc, hlive, syscall]

/-- C13: on a live handle and a non-null buffer, `tty_write` makes exactly
one call, `write` on the descriptor of the handle with the same buffer and
size, and returns the value of that call, whatever it is within the range of
`int`: a full count, a short count or a failure value.  `tty_read` does the
same with `read`.  Nothing else changes. -/
theorem tty_write_read_pass_through (os : Oracle) (s : State) (h : tty_handle_t)
    (dev : tty_dev_t) (b : List Nat) (buf n : Nat)
    (hh : h ≠ INVALID_TTY_HANDLE) (hlive : s.heap h = some dev) (hbuf : buf ≠ 0)
    (hw1 : INT_MIN ≤ (os s.trace (.sys_write dev.fd_ b n)).ret)
    (hw2 : (os s.trace (.sys_write dev.fd_ b n)).ret ≤ INT_MAX)
    (hr1 : INT_MIN ≤ (os s.trace (.sys_read dev.fd_ buf n)).ret)
    (hr2 : (os s.trace (.sys_read dev.fd_ buf n)).ret ≤ INT_MAX) :
    (∃ s1, tty_write os s h (some b) n = some ((os s.trace (.sys_write dev.fd_ b n)).ret, s1)
        ∧ s1.trace = s.trace ++ [.sys_write dev.fd_ b n] ∧ s1.heap = s.heap)
      ∧ (∃ s1, tty_read os s h buf n = some ((os s.trace (.sys_read dev.fd_ buf n)).ret, s1)
        ∧ s1.trace = s.trace ++ [.sys_read dev.fd_ buf n] ∧ s1.heap = s.heap) := by
  refine ⟨⟨(syscall os s (.sys_write dev.fd_ b n)).2, ?_, rfl, rfl⟩,
    ⟨(syscall os s (.sys_read dev.fd_ buf n)).2, ?_, rfl, rfl⟩⟩
  · rw [tty_write_live os s h dev b n hh hlive, wrap32_of_int _ hw1 hw2]
  · rw [tty_read_live os s h dev buf n hh hlive hbuf, wrap32_of_int _ hr1 hr2]

theorem tty_write_read_pass_through_witness :
    (∃ s1, tty_write os_one (State.init.store 1 (tty_dev_t.ctor 3)) 1 (some [0xfd, 0xdd, 0, 1]) 4
          = some (1, s1)
        ∧ s1.trace = [.sys_write 3 [0xfd, 0xdd, 0, 1] 4]
        ∧ s1.heap = (State.init.store 1 (tty_dev_t.ctor 3)).heap)
      ∧ (∃ s1, tty_read os_one (State.init.store 1 (tty_dev_t.ctor 3)) 1 64 4 = some (1, s1)
        ∧ s1.trace = [.sys_read 3 64 4]
        ∧ s1.heap = (State.init.store 1 (tty_dev_t.ctor 3)).heap) :=
  tty_write_read_pass_through os_one (State.init.store 1 (tty_dev_t.ctor 3)) 1
    (tty_dev_t.ctor 3) [0xfd, 0xdd, 0, 1] 64 4 (by decide) rfl (by decide)
    (by decide) (by decide) (by decide) (by decide)

/-! ## The command emitter -/

theorem do_command_frame_eq (motor angle : Nat) (hm : motor ≤ 8) (ha : angle ≤ 220) :
    do_command_frame motor angle = [0xfd, 0xdd + motor, angle, motor + angle + 1] := by
  have h1 : ((221 : Int) + (motor : Int)) % 256 = 221 + (motor : Int) := by omega
  have h3 : ((221 : Int) + (motor : Int) - 220 + (angle : Int)) % 256
      = (motor : Int) + (angle : Int) + 1 := by omega
  simp only [do_command_frame, Nat.reduceAdd]
  rw [h1, h3]
  have e1 : ((221 : Int) + (motor : Int)).toNat = 221 + motor := by omega
  have e3 : ((motor : Int) + (angle : Int) + 1).toNat = motor + angle + 1 := by omega
  rw [e1, e3]
  simp

/-- C14: for `motor` in 0..8 and `angle` in 0..220, `do_command` passes to
`tty_write`, with size 4, exactly the frame
`[0xFD, (0xDD + motor) mod 256, angle, (byte1 - 220 + byte2) mod 256]`, and
returns what `tty_write` returns; on a live handle these are the bytes given
to `write`.  For `motor = 0`, `angle = 0` the frame is `[0xFD, 0xDD, 0, 1]`. -/
theorem do_command_frame_written (os : Oracle) (s : State) (h : tty_handle_t)
    (motor angle : Nat) (hm : motor ≤ 8) (ha : angle ≤ 220) :
    ∃ byte1 byte3 : Nat, byte1 = (0xdd + motor) % 256
      ∧ (byte3 : Int) = ((byte1 : Int) - 220 + (angle : Int)) % 256
      ∧ do_command os s h motor angle
          = tty_write os s h (some [0xfd, byte1, angle, byte3]) 4
      ∧ (∀ dev, h ≠ INVALID_TTY_HANDLE → s.heap h = some dev →
          ∃ r s1, do_command os s h motor angle = some (r, s1)
            ∧ s1.trace = s.trace ++ [.sys_write dev.fd_ [0xfd, byte1, angle, byte3] 4])
      ∧ do_command os s h 0 0 = tty_write os s h (some [0xfd, 0xdd, 0x00, 1]) 4
      ∧ ((0xdd : Int) - 220 + 0) % 256 = 1 := by
  have hc : ¬ (motor > 8 ∨ angle > 220) := by omega
  have hcmd : do_command os s h motor angle
      = tty_write os s h (some [0xfd, 0xdd + motor, angle, motor + angle + 1]) 4 := by
    simp only [do_command, if_neg hc, do_command_frame_eq motor angle hm ha]
  refine ⟨0xdd + motor, motor + angle + 1, by omega, by omega, hcmd, ?_, rfl, by decide⟩
  intro dev hh hlive
  rw [hcmd, tty_write_live os s h dev _ 4 hh hlive]
  exact ⟨_, _, rfl, rfl⟩

theorem do_command_frame_written_witness :
    ∃ byte1 byte3 : Nat, byte1 = (0xdd + 3) % 256
      ∧ (byte3 : Int) = ((byte1 : Int) - 220 + ((110 : Nat) : Int)) % 256
      ∧ do_command os_one (State.init.store 1 (tty_dev_t.ctor 3)) 1 3 110
          = tty_write os_one (State.init.store 1 (tty_dev_t.ctor 3)) 1
              (some [0xfd, byte1, 110, byte3]) 4
      ∧ (∀ dev, 1 ≠ INVALID_TTY_HANDLE →
          (State.init.store 1 (tty_dev_t.ctor 3)).heap 1 = some dev →
          ∃ r s1, do_command os_one (State.init.store 1 (tty_dev_t.ctor 3)) 1 3 110
              = some (r, s1)
            ∧ s1.trace = (State.init.store 1 (tty_dev_t.ctor 3)).trace
                ++ [.sys_write dev.fd_ [0xfd, byte1, 110, byte3] 4])
      ∧ do_command os_one (State.init.store 1 (tty_dev_t.ctor 3)) 1 0 0
          = tty_write os_one (State.init.store 1 (tty_dev_t.ctor 3)) 1
              (some [0xfd, 0xdd, 0x00, 1]) 4
      ∧ ((0xdd : Int) - 220 + 0) % 256 = 1 :=
  do_command_frame_written os_one (State.init.store 1 (tty_dev_t.ctor 3)) 1 3 110
    (by decide) (by decide)

/-- C18: for `motor` in 0..8 and `angle` in 0..220 the frame of `do_command`
is `[0xFD, 0xDD + motor, angle, motor + angle + 1]`: the checksum byte is
`motor + angle + 1`, between 1 and 229, and byte 1 is at most `0xE5`, so
neither `& 0xff` changes the value it is applied to. -/
theorem do_command_checksum (motor angle : Nat) (hm : motor ≤ 8) (ha : angle ≤ 220) :
    do_command_frame motor angle = [0xfd, 0xdd + motor, angle, motor + angle + 1]
      ∧ 1 ≤ motor + angle + 1 ∧ motor + angle + 1 ≤ 229
      ∧ 0xdd + motor ≤ 0xe5
      ∧ ((0xdd : Int) + (motor : Int)) % 256 = 0xdd + (motor : Int)
      ∧ ((0xdd : Int) + (motor : Int) - 220 + (angle : Int)) % 256
          = 0xdd + (motor : Int) - 220 + (angle : Int)
      ∧ (0xdd : Int) + (motor : Int) - 220 + (angle : Int) = (motor : Int) + (angle : Int) + 1 := by
  refine ⟨do_command_frame_eq motor angle hm ha, by omega, by omega, by omega, by omega,
    by omega, by omega⟩

theorem do_command_checksum_witness :
    do_command_frame 8 220 = [0xfd, 0xdd + 8, 220, 8 + 220 + 1]
      ∧ 1 ≤ 8 + 220 + 1 ∧ 8 + 220 + 1 ≤ 229
      ∧ 0xdd + 8 ≤ 0xe5
      ∧ ((0xdd : Int) + ((8 : Nat) : Int)) % 256 = 0xdd + ((8 : Nat) : Int)
      ∧ ((0xdd : Int) + ((8 : Nat) : Int) - 220 + ((220 : Nat) : Int)) % 256
          = 0xdd + ((8 : Nat) : Int) - 220 + ((220 : Nat) : Int)
      ∧ (0xdd : Int) + ((8 : Nat) : Int) - 220 + ((220 : Nat) : Int)
          = ((8 : Nat) : Int) + ((220 : Nat) : Int) + 1 :=
  do_command_checksum 8 220 (by decide) (by decide)

/-! ## The attribute structure -/

theorem tty_set_config_attr_eq (P : Platform) (c : tty_config_t) (hvalid : valid_config c) :
    tty_set_config_attr P c = .ok (termios_of_config P c) := by
  obtain ⟨hd, hp, hs, hf⟩ := hvalid
  rcases hd with hd | hd <;> rcases hp with hp | hp | hp <;> rcases hs with hs | hs
    <;> rcases hf with hf | hf
    <;> simp [tty_set_config_attr, tty_set_config_data, tty_set_config_parity,
      tty_set_config_stop, tty_set_config_flow, termios_of_config, TTY_DATA_7, TTY_DATA_8,
      TTY_PARITY_NONE, TTY_PARITY_ODD, TTY_PARITY_EVEN, TTY_STOP_1, TTY_STOP_2,
      TTY_FLOW_NONE, TTY_FLOW_HARDWARE, hd, hp, hs, hf]

/-- C17: for a field-valid configuration the attribute structure built by
`tty_set_config` is `termios_of_config`: `c_oflag = 0`, `c_lflag = 0`,
`c_cflag = to_baudbits baud | CREAD | CS7 or CS8 | PARENB unless parity is
none | PARODD when parity is odd | CSTOPB when stop is 2 | CRTSCTS for
hardware flow, CLOCAL for none`, `c_iflag = IGNPAR` when parity is none and
`INPCK` otherwise; on a live handle it is the structure given to `tcsetattr`,
with the descriptor of the handle and `TCSADRAIN`; and the `flags` field does
not influence it. -/
theorem tty_set_config_attr_formula (P : Platform) (c : tty_config_t)
    (hvalid : valid_config c) :
    tty_set_config_attr P c = .ok (termios_of_config P c)
      ∧ (∀ (os : Oracle) (s : State) (h : tty_handle_t) (dev : tty_dev_t),
          h ≠ INVALID_TTY_HANDLE → s.heap h = some dev →
          ∃ rc s1, tty_set_config P os s h (some c) = some (rc, s1)
            ∧ s1.trace = s.trace
                ++ [.sys_tcsetattr dev.fd_ P.TCSADRAIN (termios_of_config P c)])
      ∧ (∀ f : Nat, termios_of_config P { c with flags := f } = termios_of_config P c)
      ∧ (∀ f : Nat, tty_set_config_attr P { c with flags := f }
          = tty_set_config_attr P c) := by
  have hattr := tty_set_config_attr_eq P c hvalid
  refine ⟨hattr, ?_, fun _ => rfl, fun _ => rfl⟩
  intro os s h dev hh hlive
  rw [tty_set_config_valid P os s h dev c _ hh hlive hattr]
  split_ifs
  · exact ⟨_, _, rfl, rfl⟩
  · exact ⟨_, _, rfl, rfl⟩

theorem tty_set_config_attr_formula_witness :
    tty_set_config_attr linux ⟨9600, 7, 1, 2, 1, 5⟩
        = .ok (termios_of_config linux ⟨9600, 7, 1, 2, 1, 5⟩)
      ∧ (∀ (os : Oracle) (s : State) (h : tty_handle_t) (dev : tty_dev_t),
          h ≠ INVALID_TTY_HANDLE → s.heap h = some dev →
          ∃ rc s1, tty_set_config linux os s h (some ⟨9600, 7, 1, 2, 1, 5⟩) = some (rc, s1)
            ∧ s1.trace = s.trace
                ++ [.sys_tcsetattr dev.fd_ linux.TCSADRAIN
                    (termios_of_config linux ⟨9600, 7, 1, 2, 1, 5⟩)])
      ∧ (∀ f : Nat, termios_of_config linux { (⟨9600, 7, 1, 2, 1, 5⟩ : tty_config_t) with
            flags := f } = termios_of_config linux ⟨9600, 7, 1, 2, 1, 5⟩)
      ∧ (∀ f : Nat, tty_set_config_attr linux { (⟨9600, 7, 1, 2, 1, 5⟩ : tty_config_t) with
            flags := f } = tty_set_config_attr linux ⟨9600, 7, 1, 2, 1, 5⟩) :=
  tty_set_config_attr_formula linux ⟨9600, 7, 1, 2, 1, 5⟩ (by decide)

/-! ## Closing a device -/

/-- C19: the value returned by `tty_write` does not tell an argument error
from a byte count.  With a null buffer the call is rejected, nothing is
written and `TTY_ERR_INVALID_ARGUMENT` (1) is returned; with a live handle
and a one-byte buffer whose `write` transfers one byte, 1 is returned as
well.  The same holds for `tty_read`. -/
theorem tty_write_read_ambiguous :
    tty_write os_one (State.init.store 1 (tty_dev_t.ctor 3)) 1 none 1
        = some (1, State.init.store 1 (tty_dev_t.ctor 3))
      ∧ (tty_write os_one (State.init.store 1 (tty_dev_t.ctor 3)) 1 (some [0xfd]) 1).map
          (fun r => (r.1, r.2.trace)) = some (1, [.sys_write 3 [0xfd] 1])
      ∧ tty_read os_one (State.init.store 1 (tty_dev_t.ctor 3)) 1 0 1
        = some (1, State.init.store 1 (tty_dev_t.ctor 3))
      ∧ (tty_read os_one (State.init.store 1 (tty_dev_t.ctor 3)) 1 64 1).map
          (fun r => (r.1, r.2.trace)) = some (1, [.sys_read 3 64 1])
      ∧ TTY_ERR_INVALID_ARGUMENT = 1
      ∧ (os_one [] (.sys_write 3 [0xfd] 1)).ret = 1
      ∧ (os_one [] (.sys_read 3 64 1)).ret = 1 :=
  ⟨rfl, rfl, rfl, rfl, rfl, rfl, rfl⟩

end LibTTY
